import Mathlib

/-!
Verification of the intrinsic-composition layer of the rquickjs wrapper
(`src/core/src/context/builder.rs` against the engine ABI declared in
`src/sys/src/bindings/wasm32-wasi.rs`).

The embedding reifies the type-level structure of the Rust code:

* `Marker` enumerates the sixteen capability marker structs declared by the
  `intrinsic_impls!(@builtin: ...)` invocation (builder.rs lines 48-82).
* `EngineCall` records one invocation of an engine installer entry point,
  with the context pointer (modelled as a `Nat`) and, for
  `JS_EnableBignumExt`, its `enable` argument (bindings lines 373-418).
* `Intrin` / `IntrinList` reify the composite types: a leaf marker or a
  tuple of composites of any arity and nesting depth.
* `Intrin.addIntrinsic` is the trace of engine installer calls performed by
  `<I as Intrinsic>::add_intrinsic(ctx)`: a builtin marker performs the
  single call `qjs::$func(ctx.as_ptr(), $args)` (builder.rs lines 20-24),
  and a tuple performs each member's `add_intrinsic` in order, left to
  right (builder.rs lines 30-37).
* `Intrin.hasInstance` records for which composites the Rust `Intrinsic`
  trait is implemented: every builtin marker, and tuples of arity 0
  through 17 of implementors (the arities listed at builder.rs
  lines 111-131).
-/

/-- The sixteen capability marker structs declared by
`intrinsic_impls!(@builtin: ...)` in builder.rs. -/
inductive Marker where
  | BaseObjects
  | Date
  | Eval
  | StringNormalize
  | RegExpCompiler
  | RegExp
  | Json
  | Proxy
  | MapSet
  | TypedArrays
  | Promise
  | BigInt
  | BigFloat
  | BigDecimal
  | Operators
  | BignumExt
deriving DecidableEq, Repr

/-- One invocation of an engine installer entry point, as declared in
`src/sys/src/bindings/wasm32-wasi.rs` lines 373-418. Each carries the
context pointer it was given; `JS_EnableBignumExt` additionally carries its
`enable : c_int` argument. -/
inductive EngineCall where
  | JS_AddIntrinsicBaseObjects (ctx : Nat)
  | JS_AddIntrinsicDate (ctx : Nat)
  | JS_AddIntrinsicEval (ctx : Nat)
  | JS_AddIntrinsicStringNormalize (ctx : Nat)
  | JS_AddIntrinsicRegExpCompiler (ctx : Nat)
  | JS_AddIntrinsicRegExp (ctx : Nat)
  | JS_AddIntrinsicJSON (ctx : Nat)
  | JS_AddIntrinsicProxy (ctx : Nat)
  | JS_AddIntrinsicMapSet (ctx : Nat)
  | JS_AddIntrinsicTypedArrays (ctx : Nat)
  | JS_AddIntrinsicPromise (ctx : Nat)
  | JS_AddIntrinsicBigInt (ctx : Nat)
  | JS_AddIntrinsicBigFloat (ctx : Nat)
  | JS_AddIntrinsicBigDecimal (ctx : Nat)
  | JS_AddIntrinsicOperators (ctx : Nat)
  | JS_EnableBignumExt (ctx : Nat) (enable : Int)
deriving DecidableEq, Repr

/-- The engine installer call performed by a given marker's `add_intrinsic`
body: the expansion of `intrinsic_impls!(@builtin: ...)` pairs each marker
struct with one `qjs::JS_*` function, `BignumExt` passing the extra
argument `1` (builder.rs lines 48-82). -/
def Marker.engineCall : Marker → Nat → EngineCall
  | .BaseObjects, ctx => .JS_AddIntrinsicBaseObjects ctx
  | .Date, ctx => .JS_AddIntrinsicDate ctx
  | .Eval, ctx => .JS_AddIntrinsicEval ctx
  | .StringNormalize, ctx => .JS_AddIntrinsicStringNormalize ctx
  | .RegExpCompiler, ctx => .JS_AddIntrinsicRegExpCompiler ctx
  | .RegExp, ctx => .JS_AddIntrinsicRegExp ctx
  | .Json, ctx => .JS_AddIntrinsicJSON ctx
  | .Proxy, ctx => .JS_AddIntrinsicProxy ctx
  | .MapSet, ctx => .JS_AddIntrinsicMapSet ctx
  | .TypedArrays, ctx => .JS_AddIntrinsicTypedArrays ctx
  | .Promise, ctx => .JS_AddIntrinsicPromise ctx
  | .BigInt, ctx => .JS_AddIntrinsicBigInt ctx
  | .BigFloat, ctx => .JS_AddIntrinsicBigFloat ctx
  | .BigDecimal, ctx => .JS_AddIntrinsicBigDecimal ctx
  | .Operators, ctx => .JS_AddIntrinsicOperators ctx
  | .BignumExt, ctx => .JS_EnableBignumExt ctx 1

mutual

/-- A capability composite type: either one of the builtin marker structs,
or a tuple of composites (of any arity; `hasInstance` below records which
arities the Rust impls actually cover). -/
inductive Intrin where
  | mk (m : Marker) : Intrin
  | tup (elems : IntrinList) : Intrin
deriving DecidableEq, Repr

/-- The ordered member list of a tuple composite. -/
inductive IntrinList where
  | nil : IntrinList
  | cons (hd : Intrin) (tl : IntrinList) : IntrinList
deriving DecidableEq, Repr

end

/-- Builds an `IntrinList` from a Lean list, preserving order. -/
def IntrinList.ofList : List Intrin → IntrinList
  | [] => .nil
  | i :: rest => .cons i (IntrinList.ofList rest)

/-- A tuple composite from a Lean list of members. -/
def Intrin.tupOf (l : List Intrin) : Intrin :=
  .tup (.ofList l)

/-- Number of members of a tuple composite. -/
def IntrinList.length : IntrinList → Nat
  | .nil => 0
  | .cons _ tl => 1 + tl.length

mutual

/-- The trace of engine installer invocations performed by
`<I as Intrinsic>::add_intrinsic(ctx)`: a builtin marker performs exactly
its one engine call (builder.rs lines 20-24), and a tuple performs each
member's `add_intrinsic` in declaration order (builder.rs lines 30-37). -/
def Intrin.addIntrinsic : Intrin → Nat → List EngineCall
  | .mk m, ctx => [m.engineCall ctx]
  | .tup l, ctx => l.addIntrinsic ctx

/-- Trace of the sequential member installs `$($name::add_intrinsic(_ctx);)*`
of a tuple impl. -/
def IntrinList.addIntrinsic : IntrinList → Nat → List EngineCall
  | .nil, _ => []
  | .cons i rest, ctx => i.addIntrinsic ctx ++ rest.addIntrinsic ctx

end

mutual

/-- The flat left-to-right list of leaf markers of a composite. -/
def Intrin.flatten : Intrin → List Marker
  | .mk m => [m]
  | .tup l => l.flatten

/-- Flattening of a member list, in order. -/
def IntrinList.flatten : IntrinList → List Marker
  | .nil => []
  | .cons i rest => i.flatten ++ rest.flatten

end

mutual

/-- Whether the Rust `Intrinsic` trait is implemented for this composite:
every builtin marker has an impl (builder.rs lines 48-82), and a tuple has
one exactly when its arity is at most 17 and every member has one — the
`intrinsic_impls!(@tuple: ...)` invocation lists the arities 0 through 17
(builder.rs lines 111-131). -/
def Intrin.hasInstance : Intrin → Bool
  | .mk _ => true
  | .tup l => decide (l.length ≤ 17) && l.allHasInstance

/-- Whether every member of the list implements `Intrinsic`. -/
def IntrinList.allHasInstance : IntrinList → Bool
  | .nil => true
  | .cons i rest => i.hasInstance && rest.allHasInstance

end

namespace intrinsic

/-- An alias for BaseObjects (builder.rs line 85). -/
def Base : Intrin := .mk .BaseObjects

/-- The zero-marker composite, `pub type None = ();` (builder.rs line 88). -/
def None : Intrin := .tup .nil

/-- The all-intrinsics composite, the 16-tuple at builder.rs lines 91-108. -/
def All : Intrin := .tupOf [Base, .mk .Date, .mk .Eval, .mk .StringNormalize,
  .mk .RegExpCompiler, .mk .RegExp, .mk .Json, .mk .Proxy, .mk .MapSet,
  .mk .TypedArrays, .mk .Promise, .mk .BigInt, .mk .BigFloat,
  .mk .BigDecimal, .mk .Operators, .mk .BignumExt]

end intrinsic

/-- The builder, `pub struct ContextBuilder<I>(PhantomData<I>)` (builder.rs
line 12). Its only content is the phantom composite type parameter, reified
here as the field `intrin`; it carries no runtime data. -/
structure ContextBuilder where
  intrin : Intrin
deriving DecidableEq, Repr

/-- The `Default` impl, provided exactly for `ContextBuilder<()>`
(builder.rs lines 133-137): the default builder's composite is the empty
tuple. -/
def ContextBuilder.default : ContextBuilder :=
  ⟨.tup .nil⟩

/-- The operation `ContextBuilder::<I>::with::<J>() -> ContextBuilder<(I, J)>`
(builder.rs lines 140-142). Its body is `ContextBuilder(PhantomData)`: the
composite type grows to the pair `(I, J)` and no engine call is made, which
the second component (the empty trace) records. -/
def ContextBuilder.with' (b : ContextBuilder) (J : Intrin) :
    ContextBuilder × List EngineCall :=
  (⟨.tupOf [b.intrin, J]⟩, [])

/-- The error returned when context allocation fails. -/
inductive BuildError where
  | Allocation
deriving DecidableEq, Repr

/-- A runtime handle, as far as context building observes it: whether the
engine can currently allocate a fresh context from it and, if so, which
pointer the allocation returns. -/
structure Runtime where
  allocCtx : Option Nat
deriving DecidableEq, Repr

/-- A finished context handle. -/
structure Context where
  ctx : Nat
deriving DecidableEq, Repr

/-- Modelled from the spec: `Context::custom::<I>(runtime)` — its defining
module is not among the given sources. Per the spec, it "allocates one new
Context Handle from that Runtime, runs the composite's `install` exactly
once against it, and returns the finished Context or a resource-exhaustion
error if context allocation itself failed (before any intrinsic ran)";
"if base allocation fails, no `install` calls occur; once allocation
succeeds, all selected installers run unconditionally to completion". The
second component is the trace of engine installer calls performed. -/
def Context.custom (rt : Runtime) (I : Intrin) :
    Except BuildError Context × List EngineCall :=
  match rt.allocCtx with
  | none => (.error .Allocation, [])
  | some p => (.ok ⟨p⟩, I.addIntrinsic p)

/-- The operation `ContextBuilder::<I>::build(self, runtime)` (builder.rs
lines 144-146): its body is `Context::custom::<I>(runtime)`. -/
def ContextBuilder.build (b : ContextBuilder) (rt : Runtime) :
    Except BuildError Context × List EngineCall :=
  Context.custom rt b.intrin

/-- Right-nested encoding of an arbitrarily long marker list using only
pairs, showing selections beyond arity 17 stay expressible by nesting. -/
def Intrin.nest : List Marker → Intrin
  | [] => .tup .nil
  | m :: rest => .tupOf [.mk m, Intrin.nest rest]

/-- A flat tuple whose members are exactly the given markers. -/
def Intrin.flatTupleOf (ms : List Marker) : Intrin :=
  .tupOf (ms.map .mk)

/-- The extra (non-context) argument an engine call carries, if any:
only `JS_EnableBignumExt` takes one. -/
def EngineCall.extraArg : EngineCall → Option Int
  | .JS_EnableBignumExt _ e => some e
  | _ => none

mutual

theorem Intrin.addIntrinsic_eq_flatten (I : Intrin) (ctx : Nat) :
    I.addIntrinsic ctx = I.flatten.map (fun m => m.engineCall ctx) :=
  match I with
  | .mk _ => rfl
  | .tup l => IntrinList.addIntrinsic_members_eq_flatten l ctx

theorem IntrinList.addIntrinsic_members_eq_flatten (l : IntrinList) (ctx : Nat) :
    l.addIntrinsic ctx = l.flatten.map (fun m => m.engineCall ctx) :=
  match l with
  | .nil => rfl
  | .cons i rest => by
    rw [IntrinList.addIntrinsic, IntrinList.flatten, List.map_append,
      Intrin.addIntrinsic_eq_flatten i ctx,
      IntrinList.addIntrinsic_members_eq_flatten rest ctx]

end

theorem Marker.engineCall_injective (ctx : Nat) :
    Function.Injective (fun m : Marker => m.engineCall ctx) := by
  intro a b h
  cases a <;> cases b <;> simp_all [Marker.engineCall]

theorem IntrinList.length_ofList (l : List Intrin) :
    (IntrinList.ofList l).length = l.length := by
  induction l with
  | nil => rfl
  | cons i rest ih =>
    simp [IntrinList.ofList, IntrinList.length, ih, Nat.add_comm]

theorem IntrinList.allHasInstance_ofList (l : List Intrin) :
    (IntrinList.ofList l).allHasInstance = l.all Intrin.hasInstance := by
  induction l with
  | nil => rfl
  | cons i rest ih => simp [IntrinList.ofList, IntrinList.allHasInstance, ih]

theorem IntrinList.flatten_ofList (l : List Intrin) :
    (IntrinList.ofList l).flatten = l.flatMap Intrin.flatten := by
  induction l with
  | nil => rfl
  | cons i rest ih => simp [IntrinList.ofList, IntrinList.flatten, ih]

theorem Intrin.nest_flatten (ms : List Marker) :
    (Intrin.nest ms).flatten = ms := by
  induction ms with
  | nil => rfl
  | cons m rest ih =>
    simp [Intrin.nest, Intrin.tupOf, Intrin.flatten, IntrinList.ofList,
      IntrinList.flatten, ih]

theorem Intrin.nest_hasInstance (ms : List Marker) :
    (Intrin.nest ms).hasInstance = true := by
  induction ms with
  | nil => rfl
  | cons m rest ih =>
    simp [Intrin.nest, Intrin.tupOf, Intrin.hasInstance, IntrinList.ofList,
      IntrinList.allHasInstance, IntrinList.length, ih]

/-- C1: installing any capability composite invokes each leaf marker's
engine installer exactly once, in the literal left-to-right order of
declaration — the call trace is exactly the map of the composite's
flattened marker list — and consequently any two composites with the same
left-to-right flattening (in particular, a nested tuple of tuples and the
flat tuple obtained by flattening it) produce the identical sequence of
engine installer calls. -/
theorem composite_installs_flattened_left_to_right :
    (∀ (I : Intrin) (ctx : Nat),
      I.addIntrinsic ctx = I.flatten.map (fun m => m.engineCall ctx)) ∧
    (∀ (I J : Intrin) (ctx : Nat), I.flatten = J.flatten →
      I.addIntrinsic ctx = J.addIntrinsic ctx) := by
  refine ⟨Intrin.addIntrinsic_eq_flatten, fun I J ctx h => ?_⟩
  rw [Intrin.addIntrinsic_eq_flatten, Intrin.addIntrinsic_eq_flatten, h]

/-- Witness for C1 at a concrete input: the nested composite
((Date, Eval), Json) flattens like the flat composite (Date, Eval, Json)
and installs the very same engine call sequence into context 7. -/
theorem composite_installs_flattened_left_to_right_witness :
    (Intrin.tupOf [Intrin.tupOf [.mk .Date, .mk .Eval], .mk .Json]).flatten
      = (Intrin.tupOf [.mk .Date, .mk .Eval, .mk .Json]).flatten ∧
    (Intrin.tupOf [Intrin.tupOf [.mk .Date, .mk .Eval], .mk .Json]).addIntrinsic 7
      = (Intrin.tupOf [.mk .Date, .mk .Eval, .mk .Json]).addIntrinsic 7 :=
  ⟨by decide, composite_installs_flattened_left_to_right.2 _ _ 7 (by decide)⟩

/-- C2: building from a runtime either fails before any install — when
context allocation fails the result is the allocation error and the
installer trace is empty — or allocates the one fresh context handle and
runs the composite's full installer sequence to completion against exactly
that handle; there is no partially installed outcome. -/
theorem build_allocates_once_then_installs_all :
    ∀ (b : ContextBuilder) (rt : Runtime),
      (rt.allocCtx = Option.none →
        b.build rt = (Except.error BuildError.Allocation, [])) ∧
      (∀ p : Nat, rt.allocCtx = some p →
        b.build rt =
          (Except.ok ⟨p⟩, b.intrin.flatten.map (fun m => m.engineCall p))) := by
  intro b rt
  constructor
  · intro h
    simp [ContextBuilder.build, Context.custom, h]
  · intro p h
    simp [ContextBuilder.build, Context.custom, h,
      Intrin.addIntrinsic_eq_flatten]

/-- Witness for C2 at concrete inputs: building the all-intrinsics
composite from a runtime that allocates context 5 succeeds and installs the
whole composite into context 5, and building from a runtime whose
allocation fails returns the allocation error with an empty trace. -/
theorem build_allocates_once_then_installs_all_witness :
    (ContextBuilder.mk intrinsic.All).build ⟨some 5⟩ =
      (Except.ok ⟨5⟩, intrinsic.All.flatten.map (fun m => m.engineCall 5)) ∧
    (ContextBuilder.mk intrinsic.All).build ⟨Option.none⟩ =
      (Except.error BuildError.Allocation, []) :=
  ⟨(build_allocates_once_then_installs_all ⟨intrinsic.All⟩ ⟨some 5⟩).2 5 rfl,
   (build_allocates_once_then_installs_all ⟨intrinsic.All⟩ ⟨Option.none⟩).1 rfl⟩

/-- C3: the named composite `intrinsic::All` installs the sixteen engine
installer entry points in exactly the canonical order BaseObjects, Date,
Eval, StringNormalize, RegExpCompiler, RegExp, Json, Proxy, MapSet,
TypedArrays, Promise, BigInt, BigFloat, BigDecimal, Operators, BignumExt. -/
theorem all_composite_installs_canonical_order :
    ∀ ctx : Nat, intrinsic.All.addIntrinsic ctx =
      [.JS_AddIntrinsicBaseObjects ctx, .JS_AddIntrinsicDate ctx,
       .JS_AddIntrinsicEval ctx, .JS_AddIntrinsicStringNormalize ctx,
       .JS_AddIntrinsicRegExpCompiler ctx, .JS_AddIntrinsicRegExp ctx,
       .JS_AddIntrinsicJSON ctx, .JS_AddIntrinsicProxy ctx,
       .JS_AddIntrinsicMapSet ctx, .JS_AddIntrinsicTypedArrays ctx,
       .JS_AddIntrinsicPromise ctx, .JS_AddIntrinsicBigInt ctx,
       .JS_AddIntrinsicBigFloat ctx, .JS_AddIntrinsicBigDecimal ctx,
       .JS_AddIntrinsicOperators ctx, .JS_EnableBignumExt ctx 1] :=
  fun _ => rfl

/-- C4: each individual capability marker's `add_intrinsic` performs
exactly one engine call — the call to its one corresponding installer
entry point with the given context pointer — as listed marker by marker. -/
theorem marker_installs_single_corresponding_call :
    ∀ ctx : Nat,
      (Intrin.mk .BaseObjects).addIntrinsic ctx = [.JS_AddIntrinsicBaseObjects ctx] ∧
      (Intrin.mk .Date).addIntrinsic ctx = [.JS_AddIntrinsicDate ctx] ∧
      (Intrin.mk .Eval).addIntrinsic ctx = [.JS_AddIntrinsicEval ctx] ∧
      (Intrin.mk .StringNormalize).addIntrinsic ctx = [.JS_AddIntrinsicStringNormalize ctx] ∧
      (Intrin.mk .RegExpCompiler).addIntrinsic ctx = [.JS_AddIntrinsicRegExpCompiler ctx] ∧
      (Intrin.mk .RegExp).addIntrinsic ctx = [.JS_AddIntrinsicRegExp ctx] ∧
      (Intrin.mk .Json).addIntrinsic ctx = [.JS_AddIntrinsicJSON ctx] ∧
      (Intrin.mk .Proxy).addIntrinsic ctx = [.JS_AddIntrinsicProxy ctx] ∧
      (Intrin.mk .MapSet).addIntrinsic ctx = [.JS_AddIntrinsicMapSet ctx] ∧
      (Intrin.mk .TypedArrays).addIntrinsic ctx = [.JS_AddIntrinsicTypedArrays ctx] ∧
      (Intrin.mk .Promise).addIntrinsic ctx = [.JS_AddIntrinsicPromise ctx] ∧
      (Intrin.mk .BigInt).addIntrinsic ctx = [.JS_AddIntrinsicBigInt ctx] ∧
      (Intrin.mk .BigFloat).addIntrinsic ctx = [.JS_AddIntrinsicBigFloat ctx] ∧
      (Intrin.mk .BigDecimal).addIntrinsic ctx = [.JS_AddIntrinsicBigDecimal ctx] ∧
      (Intrin.mk .Operators).addIntrinsic ctx = [.JS_AddIntrinsicOperators ctx] ∧
      (Intrin.mk .BignumExt).addIntrinsic ctx = [.JS_EnableBignumExt ctx 1] ∧
      ∀ m : Marker, ((Intrin.mk m).addIntrinsic ctx).length = 1 :=
  fun _ => ⟨rfl, rfl, rfl, rfl, rfl, rfl, rfl, rfl, rfl, rfl, rfl, rfl, rfl,
    rfl, rfl, rfl, fun _ => rfl⟩

/-- C5: composite installation performs no deduplication — for every
composite, every marker and every context, the number of times that
marker's engine installer appears in the install trace equals the number
of occurrences of the marker in the composite's flattened member list,
one call per occurrence, never fewer. -/
theorem no_deduplication_one_call_per_occurrence :
    ∀ (I : Intrin) (m : Marker) (ctx : Nat),
      (I.addIntrinsic ctx).count (m.engineCall ctx) = I.flatten.count m := by
  intro I m ctx
  rw [Intrin.addIntrinsic_eq_flatten]
  exact List.count_map_of_injective I.flatten _ (Marker.engineCall_injective ctx) m

/-- C6: the zero-marker composite `intrinsic::None` (the empty tuple)
satisfies the Intrinsic contract, its `add_intrinsic` performs no engine
installer call at all, and building with it (when context allocation
succeeds) yields the context with an empty installer trace. -/
theorem none_composite_installs_nothing :
    intrinsic.None.hasInstance = true ∧
    (∀ ctx : Nat, intrinsic.None.addIntrinsic ctx = []) ∧
    (∀ (rt : Runtime) (p : Nat), rt.allocCtx = some p →
      (ContextBuilder.mk intrinsic.None).build rt = (Except.ok ⟨p⟩, [])) := by
  refine ⟨rfl, fun _ => rfl, fun rt p h => ?_⟩
  simp [ContextBuilder.build, Context.custom, h, intrinsic.None,
    Intrin.addIntrinsic, IntrinList.addIntrinsic]

/-- Witness for C6 at a concrete input: building the empty composite from
a runtime that allocates context 3 yields the context and no calls. -/
theorem none_composite_installs_nothing_witness :
    (ContextBuilder.mk intrinsic.None).build ⟨some 3⟩ = (Except.ok ⟨3⟩, []) :=
  none_composite_installs_nothing.2.2 ⟨some 3⟩ 3 rfl

/-- C7: the select-additional-capability operation returns a builder whose
composite is the pair of the previous composite and the new marker — so
installing the new composite installs the previous members then the new
one — and performs no engine call itself (its trace component is empty);
the builder carries nothing beyond the reified composite. -/
theorem with_extends_composite_no_effect :
    ∀ (b : ContextBuilder) (J : Intrin) (ctx : Nat),
      (b.with' J).1.intrin = Intrin.tupOf [b.intrin, J] ∧
      (b.with' J).2 = [] ∧
      (b.with' J).1.intrin.addIntrinsic ctx =
        b.intrin.addIntrinsic ctx ++ J.addIntrinsic ctx := by
  intro b J ctx
  refine ⟨rfl, rfl, ?_⟩
  simp [ContextBuilder.with', Intrin.tupOf, IntrinList.ofList,
    Intrin.addIntrinsic, IntrinList.addIntrinsic]

/-- C8: the builder's default instance is bound to the empty composite:
its accumulated composite is the zero-marker composite `intrinsic::None`,
whose installation performs no engine call. -/
theorem default_builder_is_empty_composite :
    ContextBuilder.default.intrin = intrinsic.None ∧
    ∀ ctx : Nat, ContextBuilder.default.intrin.addIntrinsic ctx = [] :=
  ⟨rfl, fun _ => rfl⟩

/-- C9: the Intrinsic contract covers flat tuples of markers of every
arity from 0 through 17 and no larger flat tuple — a flat marker tuple has
an impl exactly when its arity is at most 17, an 18-marker flat tuple has
none — while any marker list of any length remains expressible by nesting
pairs, with the same left-to-right flattening. -/
theorem tuple_impls_arity_zero_through_seventeen :
    (∀ ms : List Marker,
      (Intrin.flatTupleOf ms).hasInstance = decide (ms.length ≤ 17)) ∧
    (Intrin.flatTupleOf (List.replicate 18 .Date)).hasInstance = false ∧
    (∀ ms : List Marker,
      (Intrin.nest ms).hasInstance = true ∧ (Intrin.nest ms).flatten = ms) := by
  refine ⟨fun ms => ?_, by decide,
    fun ms => ⟨Intrin.nest_hasInstance ms, Intrin.nest_flatten ms⟩⟩
  simp only [Intrin.flatTupleOf, Intrin.tupOf, Intrin.hasInstance,
    IntrinList.length_ofList, IntrinList.allHasInstance_ofList,
    List.length_map]
  cases h : decide (ms.length ≤ 17) <;>
    simp [List.all_eq_true, Intrin.hasInstance]

/-- C10: BignumExt's installer is the only one taking an extra argument,
its `add_intrinsic` always calls `JS_EnableBignumExt` with the constant
enable value 1, and the all-intrinsics composite lists BignumExt as its
final member. -/
theorem bignum_ext_enable_one_and_last :
    ∀ ctx : Nat,
      (Intrin.mk .BignumExt).addIntrinsic ctx = [.JS_EnableBignumExt ctx 1] ∧
      (∀ m : Marker, (m.engineCall ctx).extraArg =
        if m = .BignumExt then some 1 else Option.none) ∧
      intrinsic.All.flatten.getLast? = some .BignumExt := by
  intro ctx
  refine ⟨rfl, fun m => ?_, by decide⟩
  cases m <;> rfl
